import Mathlib

/-!
Shallow embedding of the object-resolution and range-addressing core of
`src/xlwings/main.py` (xlwings 0.7.x era), together with theorems settling
the frozen claims about its specification.

Conventions:
* Python values that can live in a cell or an options bag are modelled by
  `PyVal` (`None`, strings, ints).
* Fallible Python code (code that `raise`s) is modelled with `Except`.
* The automation layer (`xlplatform`) is not part of `src/`; the handful of
  primitive operations the core calls on it (`Range.__call__`, `raw_value`,
  `end`, `worksheet.range`, `__len__`) are modelled from the spec's words and
  are marked `Modelled from the spec:` in their doc comments.
-/

/-- A Python value as it occurs in cells and option bags: `None`, a string,
or an integer. -/
inductive PyVal where
  | none
  | str (s : String)
  | int (i : Int)
deriving DecidableEq, Repr

/-- The distinct failures raised by the Range core (`main.py` raises
`IndexError` / `ValueError` / `AssertionError` with the recorded payloads). -/
inductive XErr where
  /-- `IndexError("Attempted to access 0-based Range. ...")`, main.py:489 -/
  | zeroBased
  /-- `ValueError("Invalid arguments")`, main.py:495/504 -/
  | invalidArgs
  /-- `ValueError("Slice steps not supported.")`, main.py:706/713/727 -/
  | sliceStep
  /-- `IndexError("Index %s out of range (%s elements).")`, main.py:753/756 -/
  | indexOutOfRange (index : Int) (count : Int)
  /-- `IndexError("Start index %s out of range (%s elements).")`, main.py:733/736 -/
  | startOutOfRange (index : Int) (count : Int)
  /-- `IndexError("Stop index %s out of range (%s elements).")`, main.py:743/746 -/
  | stopOutOfRange (index : Int) (count : Int)
  /-- `assert row_size > 0` / `assert column_size > 0`, main.py:893/897 -/
  | assertFailed
deriving DecidableEq, Repr

deriving instance DecidableEq for Except

/-- The coordinate data of a `Range` object: 1-based top-left `row`/`column`,
extent `row_count`/`column_count`, and the read/write options bag
`self._options` (a Python dict, modelled as an association list).
Coordinates are `Int` because the Python code performs unchecked integer
arithmetic on them. -/
structure XRange where
  row : Int
  column : Int
  row_count : Int
  column_count : Int
  opts : List (String × PyVal)
deriving DecidableEq, Repr

/-- A worksheet grid: `rows × cols` used extent and the cell contents
(1-based). Modelled from the spec: the automation handle's
`cellValue(sheet,row,col)` / `rowCount` / `columnCount` collaborator. -/
structure XSheet where
  rows : Nat
  cols : Nat
  val : Int → Int → PyVal

/-- Cell probe: outside the sheet extent a probe reads blank.
Modelled from the spec: `cellValue` on the opaque automation handle. -/
def gval (g : XSheet) (r c : Int) : PyVal :=
  if 1 ≤ r ∧ r ≤ (g.rows : Int) ∧ 1 ≤ c ∧ c ≤ (g.cols : Int) then g.val r c
  else PyVal.none

/-- The emptiness test of `main.py`: `raw_value in [None, ""]`. -/
def isEmptyVal : PyVal → Bool
  | PyVal.none => true
  | PyVal.str s => s == ""
  | PyVal.int _ => false

/-! ## Document resolution (`Workbook.__init__`, main.py:167-199) -/

/-- An open workbook as the resolver sees it: display name and full path. -/
structure WbHandle where
  name : String
  fullname : String
deriving DecidableEq, Repr

/-- One running Excel instance with its open workbooks. -/
structure AppInst where
  workbooks : List WbHandle
deriving DecidableEq, Repr

/-- The resolver's view of the world: all running instances, plus the set of
paths for which `os.path.isfile` answers true (paths stored lowercased,
since the code lowercases the identifier before the check). -/
structure Registry where
  apps : List AppInst
  diskFiles : List String
deriving DecidableEq, Repr

/-- Outcome of `Workbook.__init__(fullname)`: connected to an already-open
workbook, opened from disk in the active instance, or raised
`Exception(msg)`. -/
inductive WbResult where
  | connected (wb : WbHandle)
  | openedFromDisk (path : String)
  | error (msg : String)
deriving DecidableEq, Repr

/-- Python `str.lower()` as used by the resolver (main.py:174).
Defined by mapping `Char.toLower` over the characters so that concrete
instances evaluate by kernel reduction. -/
def pyLower (s : String) : String :=
  String.mk (s.data.map Char.toLower)

/-- The candidate scan of main.py:176-180: every workbook of every instance
whose lowercased full path or display name equals the (already lowercased)
identifier. -/
def workbookCandidates (reg : Registry) (fullname : String) : List WbHandle :=
  reg.apps.flatMap fun app =>
    app.workbooks.filter fun wb =>
      pyLower wb.fullname == fullname || pyLower wb.name == fullname

/-- Message of main.py:186: `"Could not connect to workbook '%s'" % fullname`. -/
def notFoundMsg (fullname : String) : String :=
  "Could not connect to workbook \x27" ++ fullname ++ "\x27"

/-- Message of main.py:188:
`"Workbook '%s' is open in more than one Excel instance." % fullname`. -/
def ambiguousMsg (fullname : String) : String :=
  "Workbook \x27" ++ fullname ++ "\x27 is open in more than one Excel instance."

/-- `Workbook.__init__` with a `fullname` argument (main.py:171-190):
lowercase the identifier, scan all instances for matches, then connect /
open from disk / fail. -/
def resolveWorkbook (reg : Registry) (fullname0 : String) : WbResult :=
  let fullname := pyLower fullname0
  match workbookCandidates reg fullname with
  | [] =>
    if fullname ∈ reg.diskFiles then WbResult.openedFromDisk fullname
    else WbResult.error (notFoundMsg fullname)
  | [wb] => WbResult.connected wb
  | _ :: _ :: _ => WbResult.error (ambiguousMsg fullname)

/-! ## Range primitives supplied by the automation layer -/

/-- `self(i, j)`: the single-cell Range at 1-based offset `(i, j)` from the
top-left of `rng`, i.e. the cell `(rng.row + i - 1, rng.column + j - 1)`.
Modelled from the spec: the automation handle's cell addressing used by
`offset`, `table` and `__getitem__` (a freshly constructed Range carries no
options). -/
def callRC (rng : XRange) (i j : Int) : XRange :=
  { row := rng.row + i - 1
    column := rng.column + j - 1
    row_count := 1
    column_count := 1
    opts := [] }

/-- `worksheet.range(r1, r2)` / `Range(r1, r2)`: the normalized rectangle
spanning the two given Ranges. Modelled from the spec: two Ranges are
"interpreted as defining opposite corners of a new rectangle spanning both",
and a Region is "always normalized". The freshly built Range has an empty
options dict (`Range.__init__` stores the `**options` it was given, which is
empty here, main.py:506-509). -/
def rangeSpan (r1 r2 : XRange) : XRange :=
  { row := min r1.row r2.row
    column := min r1.column r2.column
    row_count := max (r1.row + r1.row_count - 1) (r2.row + r2.row_count - 1)
      - min r1.row r2.row + 1
    column_count := max (r1.column + r1.column_count - 1) (r2.column + r2.column_count - 1)
      - min r1.column r2.column + 1
    opts := [] }

/-- `self(p)` with a single argument: the cell at 1-based row-major position
`p` within `rng`. Modelled from the spec: "index i maps to the (1-based) cell
at position derived by row-major traversal of the bound Region" (Python floor
division/modulo, hence `fdiv`/`fmod`). -/
def linearCell (rng : XRange) (p : Int) : XRange :=
  callRC rng ((p - 1).fdiv rng.column_count + 1) ((p - 1).fmod rng.column_count + 1)

/-- `len(self)` for a Range. Modelled from the spec:
"element count = rowCount × columnCount". -/
def rangeLen (rng : XRange) : Int :=
  rng.row_count * rng.column_count

/-- `raw_value` of a single-cell Range: the cell probe at its coordinates.
Modelled from the spec: pass-through to the automation handle's `cellValue`. -/
def rawValue (g : XSheet) (c : XRange) : PyVal :=
  gval g c.row c.column

/-- Downward scan helper for `end('down')`, structurally recursive on the
remaining fuel: advance while the cell below is non-empty. -/
def scanDown (g : XSheet) (c : Int) : Int → Nat → Int
  | r, 0 => r
  | r, Nat.succ fuel => if isEmptyVal (gval g (r + 1) c) then r else scanDown g c (r + 1) fuel

/-- Rightward scan helper for `end('right')`. -/
def scanRight (g : XSheet) (r : Int) : Int → Nat → Int
  | c, 0 => c
  | c, Nat.succ fuel => if isEmptyVal (gval g r (c + 1)) then c else scanRight g r (c + 1) fuel

/-- `cell.end('down')`: jump to the last contiguous non-empty cell below.
Modelled from the spec: the "jump to the last contiguous non-empty cell"
directional scan; it never runs past the sheet's row extent. -/
def endDownCell (g : XSheet) (c : XRange) : XRange :=
  { row := scanDown g c.column c.row g.rows
    column := c.column
    row_count := 1
    column_count := 1
    opts := [] }

/-- `cell.end('right')`: jump to the last contiguous non-empty cell to the
right. Modelled from the spec, as for `endDownCell`. -/
def endRightCell (g : XSheet) (c : XRange) : XRange :=
  { row := c.row
    column := scanRight g c.row c.column g.cols
    row_count := 1
    column_count := 1
    opts := [] }

/-! ## Region expansion (`Range.table` / `vertical` / `horizontal`,
main.py:597-699) -/

/-- `Range.vertical` (main.py:662-668): two-step lookahead below the anchor,
falling back to the directional scan; the column width is kept. -/
def vertical (g : XSheet) (rng : XRange) : XRange :=
  if isEmptyVal (rawValue g (callRC rng 2 1)) then
    rangeSpan (callRC rng 1 1) (callRC rng 1 rng.column_count)
  else if isEmptyVal (rawValue g (callRC rng 3 1)) then
    rangeSpan (callRC rng 1 1) (callRC rng 2 rng.column_count)
  else
    let end_row := (endDownCell g (callRC rng 2 1)).row - rng.row + 1
    rangeSpan (callRC rng 1 1) (callRC rng end_row rng.column_count)

/-- `Range.horizontal` (main.py:693-699): two-step lookahead to the right of
the anchor, falling back to the directional scan; the row height is kept. -/
def horizontal (g : XSheet) (rng : XRange) : XRange :=
  if isEmptyVal (rawValue g (callRC rng 1 2)) then
    rangeSpan (callRC rng 1 1) (callRC rng rng.row_count 1)
  else if isEmptyVal (rawValue g (callRC rng 1 3)) then
    rangeSpan (callRC rng 1 1) (callRC rng rng.row_count 2)
  else
    let end_column := (endRightCell g (callRC rng 1 2)).column - rng.column + 1
    rangeSpan (callRC rng 1 1) (callRC rng rng.row_count end_column)

/-- `Range.table` (main.py:621-636): bottom-left corner by the vertical
lookahead from `origin = self(1, 1)`, top-right corner by the horizontal
lookahead, then the spanning rectangle `Range(top_right, bottom_left)`. -/
def table (g : XSheet) (rng : XRange) : XRange :=
  let origin := callRC rng 1 1
  let bottom_left :=
    if isEmptyVal (rawValue g (callRC origin 2 1)) then origin
    else if isEmptyVal (rawValue g (callRC origin 3 1)) then callRC origin 2 1
    else endDownCell g (callRC origin 2 1)
  let top_right :=
    if isEmptyVal (rawValue g (callRC origin 1 2)) then origin
    else if isEmptyVal (rawValue g (callRC origin 1 3)) then callRC origin 1 2
    else endRightCell g (callRC origin 1 2)
  rangeSpan top_right bottom_left

/-- Spec-side definition, following §4.5 of the spec word for word: the
downward growth length from anchor `(r, c)` — 1 if the adjacent cell is
empty, 2 if the cell two out is empty, else up to the far edge found by the
directional scan from the one-position-out cell. To be compared with the
code-side `vertical`/`table`. -/
def specGrowDown (g : XSheet) (r c : Int) : Int :=
  if isEmptyVal (gval g (r + 1) c) then 1
  else if isEmptyVal (gval g (r + 2) c) then 2
  else scanDown g c (r + 1) g.rows - r + 1

/-- Spec-side definition: rightward growth length from anchor `(r, c)`,
following §4.5 of the spec word for word. -/
def specGrowRight (g : XSheet) (r c : Int) : Int :=
  if isEmptyVal (gval g r (c + 1)) then 1
  else if isEmptyVal (gval g r (c + 2)) then 2
  else scanRight g r (c + 1) g.cols - c + 1

/-! ## Range indexing (`Range.__getitem__`, main.py:701-760) -/

/-- A Python slice object `slice(start, stop, step)`. -/
structure PySlice where
  start : Option Int
  stop : Option Int
  step : Option Int
deriving DecidableEq, Repr

/-- One axis key of the 2-D indexing form: an integer or a slice. -/
inductive IdxArg where
  | int (i : Int)
  | slice (s : PySlice)
deriving DecidableEq, Repr

/-- The per-axis block of main.py:704-717: a slice contributes
`(start or 0, (stop - 1) or count - 1)` after rejecting explicit steps; an
integer contributes itself for both bounds. -/
def axisBounds (k : IdxArg) (count : Int) : Except XErr (Int × Int) :=
  match k with
  | IdxArg.slice s =>
    if s.step ≠ Option.none then Except.error XErr.sliceStep
    else
      Except.ok (s.start.getD 0,
        match s.stop with
        | Option.none => count - 1
        | some v => v - 1)
  | IdxArg.int i => Except.ok (i, i)

/-- `Range.__getitem__` with a tuple key (main.py:702-724). -/
def getItem2D (rng : XRange) (rkey ckey : IdxArg) : Except XErr XRange :=
  match axisBounds rkey rng.row_count with
  | Except.error e => Except.error e
  | Except.ok (row1, row2) =>
    match axisBounds ckey rng.column_count with
    | Except.error e => Except.error e
    | Except.ok (col1, col2) =>
      if col1 = col2 ∧ row1 = row2 then
        Except.ok (callRC rng (row1 + 1) (col1 + 1))
      else
        Except.ok (rangeSpan (callRC rng (row1 + 1) (col1 + 1))
          (callRC rng (row2 + 1) (col2 + 1)))

/-- Start-index normalization of main.py:729-738: `None` defaults to 0,
`start >= l` raises, negative starts below `-l` raise, other negative starts
wrap to `l + start`. -/
def normStart (s : Option Int) (l : Int) : Except XErr Int :=
  match s with
  | Option.none => Except.ok 0
  | some v =>
    if v ≥ l then Except.error (XErr.startOutOfRange v l)
    else if v < 0 then
      if v < -l then Except.error (XErr.startOutOfRange v l) else Except.ok (l + v)
    else Except.ok v

/-- Stop-index normalization of main.py:739-748: `None` defaults to `l`,
`stop > l` raises, `stop <= -l` raises, other negative stops wrap. -/
def normStop (s : Option Int) (l : Int) : Except XErr Int :=
  match s with
  | Option.none => Except.ok l
  | some v =>
    if v > l then Except.error (XErr.stopOutOfRange v l)
    else if v < 0 then
      if v ≤ -l then Except.error (XErr.stopOutOfRange v l) else Except.ok (l + v)
    else Except.ok v

/-- `Range.__getitem__` with a slice key (main.py:725-749):
`Range(self(start + 1), self(stop))` after normalization. -/
def getItemSlice (rng : XRange) (key : PySlice) : Except XErr XRange :=
  if key.step ≠ Option.none then Except.error XErr.sliceStep
  else
    match normStart key.start (rangeLen rng) with
    | Except.error e => Except.error e
    | Except.ok start =>
      match normStop key.stop (rangeLen rng) with
      | Except.error e => Except.error e
      | Except.ok stop =>
        Except.ok (rangeSpan (linearCell rng (start + 1)) (linearCell rng stop))

/-- `Range.__getitem__` with an integer key (main.py:750-760). -/
def getItemInt (rng : XRange) (key : Int) : Except XErr XRange :=
  if key ≥ rangeLen rng then Except.error (XErr.indexOutOfRange key (rangeLen rng))
  else if key < 0 then
    if key < -rangeLen rng then Except.error (XErr.indexOutOfRange key (rangeLen rng))
    else Except.ok (linearCell rng (rangeLen rng + key + 1))
  else Except.ok (linearCell rng (key + 1))

/-! ## Options propagation (`Range.options` / `resize` / `offset`,
main.py:516-560, 873-923) -/

/-- Python dict lookup `o.get(key)` on the options bag. -/
def optLookup (key : String) : List (String × PyVal) → Option PyVal
  | [] => Option.none
  | (a, v) :: t => if a = key then some v else optLookup key t

/-- Removal of one key from the options bag (the effect of binding the
`convert` keyword parameter out of the `**options` dict). -/
def optErase (key : String) : List (String × PyVal) → List (String × PyVal)
  | [] => []
  | (a, v) :: t => if a = key then optErase key t else (a, v) :: optErase key t

/-- The dict rebuilt by `Range.options(convert=None, **options)` when called
as `.options(**self._options)` (main.py:556-560): the `convert` key is bound
to the `convert` parameter (defaulting to Python `None` when absent), removed
from the kwargs dict, and re-assigned, which appends it. -/
def applyOpts (o : List (String × PyVal)) : List (String × PyVal) :=
  optErase "convert" o ++ [("convert", (optLookup "convert" o).getD PyVal.none)]

/-- `rng.options(**o)`: same coordinates, rebuilt options dict. -/
def optionsCall (rng : XRange) (o : List (String × PyVal)) : XRange :=
  { rng with opts := applyOpts o }

/-- `Range.resize` (main.py:873-901): assert the sizes positive (default to
the current extent), then `Range(self(1, 1), self(row_size, column_size))
.options(**self._options)`. -/
def resize (rng : XRange) (row_size column_size : Option Int) : Except XErr XRange :=
  let rs : Except XErr Int :=
    match row_size with
    | some r => if r > 0 then Except.ok r else Except.error XErr.assertFailed
    | Option.none => Except.ok rng.row_count
  let cs : Except XErr Int :=
    match column_size with
    | some c => if c > 0 then Except.ok c else Except.error XErr.assertFailed
    | Option.none => Except.ok rng.column_count
  match rs, cs with
  | Except.ok r, Except.ok c =>
    Except.ok (optionsCall (rangeSpan (callRC rng 1 1) (callRC rng r c)) rng.opts)
  | Except.error e, _ => Except.error e
  | _, Except.error e => Except.error e

/-- `Range.offset` (main.py:903-923):
`Range(self(ro + 1, co + 1), self(ro + row_count, co + column_count))
.options(**self._options)`. -/
def offset (rng : XRange) (row_offset column_offset : Int) : XRange :=
  optionsCall
    (rangeSpan (callRC rng (row_offset + 1) (column_offset + 1))
      (callRC rng (row_offset + rng.row_count) (column_offset + rng.column_count)))
    rng.opts

/-! ## Tuple-form Range construction (`Range.__init__`, main.py:472-509) -/

/-- `Range.__init__` restricted to the tuple forms (main.py:482-502): one or
two `(row, column)` pairs, optionally preceded by a sheet argument. The spec
list is assembled from the trailing tuple arguments; a `0` in any tuple
raises before anything is constructed; otherwise `sheet.range(*spec)`
produces the single cell or the rectangle spanning the two corner cells. -/
def rangeFromTuples (sheet : Option String) (t1 : Int × Int)
    (t2 : Option (Int × Int)) : Except XErr XRange :=
  let tspec := match t2 with
    | some b => [t1, b]
    | Option.none => [t1]
  if tspec.any (fun s => s.1 == 0 || s.2 == 0) then Except.error XErr.zeroBased
  else
    match tspec with
    | [a] => Except.ok { row := a.1, column := a.2, row_count := 1, column_count := 1, opts := [] }
    | [a, b] =>
      Except.ok (rangeSpan
        { row := a.1, column := a.2, row_count := 1, column_count := 1, opts := [] }
        { row := b.1, column := b.2, row_count := 1, column_count := 1, opts := [] })
    | _ => Except.error XErr.invalidArgs

/-! ## Concrete fixtures used by witnesses -/

/-- A workbook named `Book1` open in a first instance. -/
def bookA : WbHandle := { name := "Book1", fullname := "c:/x/book1.xlsx" }

/-- The same-named workbook open in a second instance. -/
def bookB : WbHandle := { name := "Book1", fullname := "d:/y/book1.xlsx" }

/-- The same-named workbook open in a third instance. -/
def bookC : WbHandle := { name := "Book1", fullname := "e:/z/book1.xlsx" }

/-- One instance, one matching workbook. -/
def regOne : Registry := { apps := [{ workbooks := [bookA] }], diskFiles := [] }

/-- Two instances, each with a `Book1`. -/
def regTwo : Registry :=
  { apps := [{ workbooks := [bookA] }, { workbooks := [bookB] }], diskFiles := [] }

/-- Three instances, each with a `Book1`. -/
def regThree : Registry :=
  { apps := [{ workbooks := [bookA] }, { workbooks := [bookB] }, { workbooks := [bookC] }],
    diskFiles := [] }

/-- No open workbooks, but a file on disk. -/
def regDisk : Registry := { apps := [], diskFiles := ["c:/z/new.xlsx"] }

/-- No open workbooks and nothing on disk. -/
def regNone : Registry := { apps := [], diskFiles := [] }

/-- A single-row Range of five cells with no options. -/
def r15 : XRange := { row := 1, column := 1, row_count := 1, column_count := 5, opts := [] }

/-- A 2×3 Range anchored at the top-left corner. -/
def r23 : XRange := { row := 1, column := 1, row_count := 2, column_count := 3, opts := [] }

/-- A 2×2 Range anchored away from the corner, at `(2, 2)`. -/
def rTwo : XRange := { row := 2, column := 2, row_count := 2, column_count := 2, opts := [] }

/-- A single-row Range carrying a non-trivial options bag. -/
def rOpt : XRange :=
  { row := 1, column := 1, row_count := 1, column_count := 5,
    opts := [("ndim", PyVal.int 2)] }

/-- An entirely empty 10×10 sheet. -/
def gEmpty : XSheet := { rows := 10, cols := 10, val := fun _ _ => PyVal.none }

/-- A 10×10 sheet whose non-empty cells are exactly rows 1–4 of columns 1–3. -/
def gBlock : XSheet :=
  { rows := 10, cols := 10,
    val := fun r c => if r ≤ 4 ∧ c ≤ 3 then PyVal.int 1 else PyVal.none }

/-! ## Claim C1: document resolution -/

/-- Claim C1: for every identifier, zero open matches with the identifier an
existing file on disk opens the file in the active instance; zero matches
otherwise fails with the not-found error; exactly one match is returned with
no error; more than one match fails with the ambiguous-reference error and
never guesses. -/
theorem c1_document_resolution (reg : Registry) (ident : String) :
    (workbookCandidates reg (pyLower ident) = [] → (pyLower ident) ∈ reg.diskFiles →
      resolveWorkbook reg ident = WbResult.openedFromDisk (pyLower ident)) ∧
    (workbookCandidates reg (pyLower ident) = [] → (pyLower ident) ∉ reg.diskFiles →
      resolveWorkbook reg ident = WbResult.error (notFoundMsg (pyLower ident))) ∧
    (∀ wb, workbookCandidates reg (pyLower ident) = [wb] →
      resolveWorkbook reg ident = WbResult.connected wb) ∧
    (2 ≤ (workbookCandidates reg (pyLower ident)).length →
      resolveWorkbook reg ident = WbResult.error (ambiguousMsg (pyLower ident))) := by
  refine ⟨?_, ?_, ?_, ?_⟩
  · intro hc hm
    simp [resolveWorkbook, hc, hm]
  · intro hc hm
    simp [resolveWorkbook, hc, hm]
  · intro wb hc
    simp [resolveWorkbook, hc]
  · intro h2
    rcases hl : workbookCandidates reg (pyLower ident) with _ | ⟨a, _ | ⟨b, t⟩⟩
    · rw [hl] at h2; simp at h2
    · rw [hl] at h2; simp at h2
    · simp [resolveWorkbook, hl]

/-- Witness for C1: each of the four branches at a concrete registry. -/
theorem c1_document_resolution_witness :
    resolveWorkbook regDisk "C:/z/new.xlsx" = WbResult.openedFromDisk "c:/z/new.xlsx" ∧
    resolveWorkbook regNone "nope.xlsx" = WbResult.error (notFoundMsg "nope.xlsx") ∧
    resolveWorkbook regOne "BOOK1" = WbResult.connected bookA ∧
    resolveWorkbook regTwo "Book1" = WbResult.error (ambiguousMsg "book1") := by
  refine ⟨?_, ?_, ?_, ?_⟩
  · exact (c1_document_resolution regDisk "C:/z/new.xlsx").1 (by decide) (by decide)
  · exact (c1_document_resolution regNone "nope.xlsx").2.1 (by decide) (by decide)
  · exact (c1_document_resolution regOne "BOOK1").2.2.1 bookA (by decide)
  · exact (c1_document_resolution regTwo "Book1").2.2.2 (by decide)

/-! ## Claim C9: content of resolution failure messages -/

/-- Counterexample for C9: registries with two and with three matching
documents produce the identical ambiguity message, and that message mentions
neither the digit 2 nor the digit 3, so the count of matches found is not
reported. -/
theorem c9_counterexample :
    (workbookCandidates regTwo "book1").length = 2 ∧
    (workbookCandidates regThree "book1").length = 3 ∧
    resolveWorkbook regTwo "book1" = WbResult.error (ambiguousMsg "book1") ∧
    resolveWorkbook regThree "book1" = WbResult.error (ambiguousMsg "book1") ∧
    (ambiguousMsg "book1").data.all (fun ch => !(ch == '2' || ch == '3')) = true := by
  decide

/-- Claim C9 (amended): every resolution failure names the normalized
identifier inside its message, but the ambiguity message is a function of the
identifier alone — it does not report the count of matches found. -/
theorem c9_failure_messages (reg reg2 : Registry) (ident : String) :
    (workbookCandidates reg (pyLower ident) = [] → (pyLower ident) ∉ reg.diskFiles →
      resolveWorkbook reg ident = WbResult.error (notFoundMsg (pyLower ident)) ∧
      (pyLower ident).data <:+: (notFoundMsg (pyLower ident)).data) ∧
    (2 ≤ (workbookCandidates reg (pyLower ident)).length →
      resolveWorkbook reg ident = WbResult.error (ambiguousMsg (pyLower ident)) ∧
      (pyLower ident).data <:+: (ambiguousMsg (pyLower ident)).data) ∧
    (2 ≤ (workbookCandidates reg (pyLower ident)).length →
      2 ≤ (workbookCandidates reg2 (pyLower ident)).length →
      resolveWorkbook reg ident = resolveWorkbook reg2 ident) := by
  have hnf : (pyLower ident).data <:+: (notFoundMsg (pyLower ident)).data := by
    refine ⟨("Could not connect to workbook \x27").data, ("\x27").data, ?_⟩
    simp [notFoundMsg]
  have hamb : (pyLower ident).data <:+: (ambiguousMsg (pyLower ident)).data := by
    refine ⟨("Workbook \x27").data,
      ("\x27 is open in more than one Excel instance.").data, ?_⟩
    simp [ambiguousMsg]
  have hambres : ∀ r : Registry, 2 ≤ (workbookCandidates r (pyLower ident)).length →
      resolveWorkbook r ident = WbResult.error (ambiguousMsg (pyLower ident)) := by
    intro r h2
    rcases hl : workbookCandidates r (pyLower ident) with _ | ⟨a, _ | ⟨b, t⟩⟩
    · rw [hl] at h2; simp at h2
    · rw [hl] at h2; simp at h2
    · simp [resolveWorkbook, hl]
  refine ⟨?_, ?_, ?_⟩
  · intro hc hm
    exact ⟨by simp [resolveWorkbook, hc, hm], hnf⟩
  · intro h2
    exact ⟨hambres reg h2, hamb⟩
  · intro h2 h2b
    rw [hambres reg h2, hambres reg2 h2b]

/-- Witness for C9 (amended): concrete not-found and ambiguous failures, and
the message identity between a two-match and a three-match registry. -/
theorem c9_failure_messages_witness :
    (resolveWorkbook regNone "gone.xlsx" = WbResult.error (notFoundMsg "gone.xlsx") ∧
      ("gone.xlsx").data <:+: (notFoundMsg "gone.xlsx").data) ∧
    (resolveWorkbook regTwo "BOOK1" = WbResult.error (ambiguousMsg "book1") ∧
      ("book1").data <:+: (ambiguousMsg "book1").data) ∧
    resolveWorkbook regTwo "BOOK1" = resolveWorkbook regThree "BOOK1" := by
  refine ⟨?_, ?_, ?_⟩
  · exact (c9_failure_messages regNone regNone "gone.xlsx").1 (by decide) (by decide)
  · exact (c9_failure_messages regTwo regThree "BOOK1").2.1 (by decide)
  · exact (c9_failure_messages regTwo regThree "BOOK1").2.2 (by decide) (by decide)

/-! ## Claim C2: zero coordinates in tuple forms -/

/-- Claim C2: for every tuple-form Range construction, a coordinate equal to
0 in any tuple, on either axis, raises the zero-based access error, and no
Range is produced. -/
theorem c2_zero_coordinate (sheet : Option String) (t1 : Int × Int)
    (t2 : Option (Int × Int)) :
    (t1.1 = 0 ∨ t1.2 = 0 ∨ (∃ b, t2 = some b ∧ (b.1 = 0 ∨ b.2 = 0))) →
    rangeFromTuples sheet t1 t2 = Except.error XErr.zeroBased := by
  intro h
  rcases h with h | h | ⟨b, hb, h2⟩
  · rcases t2 with _ | b <;> simp [rangeFromTuples, h]
  · rcases t2 with _ | b <;> simp [rangeFromTuples, h]
  · subst hb
    rcases h2 with h2 | h2 <;> simp [rangeFromTuples, h2]

/-- Witness for C2: coordinate 0 on each axis of each tuple form raises. -/
theorem c2_zero_coordinate_witness :
    rangeFromTuples Option.none (0, 1) Option.none = Except.error XErr.zeroBased ∧
    rangeFromTuples Option.none (1, 0) Option.none = Except.error XErr.zeroBased ∧
    rangeFromTuples (some "Sheet1") (1, 1) (some (0, 3)) = Except.error XErr.zeroBased ∧
    rangeFromTuples (some "Sheet1") (1, 1) (some (3, 0)) = Except.error XErr.zeroBased := by
  refine ⟨?_, ?_, ?_, ?_⟩
  · exact c2_zero_coordinate Option.none (0, 1) Option.none (Or.inl rfl)
  · exact c2_zero_coordinate Option.none (1, 0) Option.none (Or.inr (Or.inl rfl))
  · exact c2_zero_coordinate (some "Sheet1") (1, 1) (some (0, 3))
      (Or.inr (Or.inr ⟨(0, 3), rfl, Or.inl rfl⟩))
  · exact c2_zero_coordinate (some "Sheet1") (1, 1) (some (3, 0))
      (Or.inr (Or.inr ⟨(3, 0), rfl, Or.inr rfl⟩))

/-! ## Claim C4: linear element access and negative indices -/

/-- Claim C4: for every Range and every `i` in `[0, count)`, `at(i)` and
`at(-(count - i))` denote the same cell, and every index out of bounds after
resolving negatives raises the index-out-of-range error naming the index and
the element count. -/
theorem c4_linear_indexing (rng : XRange) (i k : Int) :
    (0 ≤ i → i < rangeLen rng →
      getItemInt rng i = Except.ok (linearCell rng (i + 1)) ∧
      getItemInt rng (i - rangeLen rng) = Except.ok (linearCell rng (i + 1))) ∧
    (rangeLen rng ≤ k ∨ k < -(rangeLen rng) →
      getItemInt rng k = Except.error (XErr.indexOutOfRange k (rangeLen rng))) := by
  constructor
  · intro h0 h1
    constructor
    · unfold getItemInt
      rw [if_neg (by omega), if_neg (by omega)]
    · unfold getItemInt
      rw [if_neg (by omega), if_pos (by omega), if_neg (by omega)]
      have hidx : rangeLen rng + (i - rangeLen rng) + 1 = i + 1 := by ring
      rw [hidx]
  · intro h
    unfold getItemInt
    split_ifs <;> first | rfl | omega

/-- Witness for C4 on a concrete 2×3 Range: `at(4)` and `at(-2)` are the same
cell, and indices 6 and −7 raise with the index and the count 6. -/
theorem c4_linear_indexing_witness :
    getItemInt r23 4 = Except.ok (linearCell r23 5) ∧
    getItemInt r23 (-2) = Except.ok (linearCell r23 5) ∧
    getItemInt r23 6 = Except.error (XErr.indexOutOfRange 6 (rangeLen r23)) ∧
    getItemInt r23 (-7) = Except.error (XErr.indexOutOfRange (-7) (rangeLen r23)) := by
  have h4 := (c4_linear_indexing r23 4 6).1 (by decide) (by decide)
  have h6 := (c4_linear_indexing r23 4 6).2 (Or.inl (by decide))
  have h7 := (c4_linear_indexing r23 4 (-7)).2 (Or.inr (by decide))
  exact ⟨h4.1, h4.2, h6, h7⟩

/-! ## Claim C5: slices with stop < start -/

/-- Counterexample for C5: on a 1×5 Range the slice `[3:1]` (start and stop
in bounds, stop < start) raises no error but yields the spanning Range
`A1:D1` with element count 4, not an empty selection of count 0. -/
theorem c5_counterexample :
    getItemSlice r15 { start := some 3, stop := some 1, step := Option.none } =
      Except.ok { row := 1, column := 1, row_count := 1, column_count := 4, opts := [] } ∧
    rangeLen { row := 1, column := 1, row_count := 1, column_count := 4, opts := [] } = 4 := by
  decide

/-- Claim C5 (amended): for in-bounds non-negative start/stop with
stop < start, slicing raises no error but returns the rectangle spanning
linear positions `stop` and `start + 1` — a Range of at least one cell on
each axis, never an empty selection. -/
theorem c5_reversed_slice (rng : XRange) (a b : Int)
    (hb : 0 ≤ b) (hba : b < a) (hal : a < rangeLen rng) :
    getItemSlice rng { start := some a, stop := some b, step := Option.none } =
      Except.ok (rangeSpan (linearCell rng (a + 1)) (linearCell rng b)) ∧
    1 ≤ (rangeSpan (linearCell rng (a + 1)) (linearCell rng b)).row_count ∧
    1 ≤ (rangeSpan (linearCell rng (a + 1)) (linearCell rng b)).column_count := by
  refine ⟨?_, ?_, ?_⟩
  · unfold getItemSlice normStart normStop
    simp only []
    rw [if_neg (by simp)]
    rw [if_neg (by omega), if_neg (by omega), if_neg (by omega), if_neg (by omega)]
  · simp only [rangeSpan, linearCell, callRC]
    omega
  · simp only [rangeSpan, linearCell, callRC]
    omega

/-- Witness for C5 (amended), at the concrete slice `[3:1]` of a 1×5 Range. -/
theorem c5_reversed_slice_witness :
    getItemSlice r15 { start := some 3, stop := some 1, step := Option.none } =
      Except.ok (rangeSpan (linearCell r15 4) (linearCell r15 1)) ∧
    1 ≤ (rangeSpan (linearCell r15 4) (linearCell r15 1)).row_count ∧
    1 ≤ (rangeSpan (linearCell r15 4) (linearCell r15 1)).column_count :=
  c5_reversed_slice r15 3 1 (by decide) (by decide) (by decide)

/-! ## Claim C6: 2-D element access -/

/-- Counterexample for C6: on the 2×2 Range anchored at `(2, 2)` whose last
cell is `(3, 3)`, the 2-D access `at(-1, -1)` returns the cell `(1, 1)` above
and left of the anchor instead of counting from the end, and the
out-of-bounds access `at(5, 5)` returns the far-away cell `(7, 7)` instead of
raising the index-out-of-range error. -/
theorem c6_counterexample :
    getItem2D rTwo (IdxArg.int (-1)) (IdxArg.int (-1)) =
      Except.ok { row := 1, column := 1, row_count := 1, column_count := 1, opts := [] } ∧
    ({ row := 1, column := 1, row_count := 1, column_count := 1, opts := [] } : XRange) ≠
      { row := 3, column := 3, row_count := 1, column_count := 1, opts := [] } ∧
    getItem2D rTwo (IdxArg.int 5) (IdxArg.int 5) =
      Except.ok { row := 7, column := 7, row_count := 1, column_count := 1, opts := [] } := by
  decide

/-- Claim C6 (amended): 2-D integer access `at(r, c)` returns the single cell
at plain offset `(r, c)` from the anchor, with no negative-index resolution
and no bounds check on either axis — in particular it never raises the
index-out-of-range error. -/
theorem c6_plain_offset (rng : XRange) (r c : Int) :
    getItem2D rng (IdxArg.int r) (IdxArg.int c) =
      Except.ok { row := rng.row + r, column := rng.column + c,
                  row_count := 1, column_count := 1, opts := [] } := by
  simp only [getItem2D, axisBounds, if_pos, and_self, ite_true, callRC,
    Except.ok.injEq, XRange.mk.injEq, and_true]
  constructor <;> ring

/-! ## Claim C10: explicit slice steps -/

/-- Slice-free axis keys: an integer, or a slice whose step is omitted. -/
def stepOmitted : IdxArg → Prop
  | IdxArg.int _ => True
  | IdxArg.slice s => s.step = Option.none

/-- `normStart` raises only start-out-of-range errors, never the
slice-step error. -/
theorem normStart_not_sliceStep (s : Option Int) (l : Int) :
    normStart s l ≠ Except.error XErr.sliceStep := by
  rcases s with _ | v
  · simp [normStart]
  · simp only [normStart]
    split_ifs <;> simp

/-- `normStop` raises only stop-out-of-range errors, never the
slice-step error. -/
theorem normStop_not_sliceStep (s : Option Int) (l : Int) :
    normStop s l ≠ Except.error XErr.sliceStep := by
  rcases s with _ | v
  · simp [normStop]
  · simp only [normStop]
    split_ifs <;> simp

/-- Claim C10: a slice with any explicit step — on the linear form or on
either axis of the 2-D form — raises the unsupported-slice-step error, and
keys without an explicit step are never rejected for their step (the linear
form never raises that error, and the 2-D form succeeds outright). -/
theorem c10_slice_step (rng : XRange) (s : PySlice) (rk ck : IdxArg) :
    (s.step ≠ Option.none →
      getItemSlice rng s = Except.error XErr.sliceStep ∧
      getItem2D rng (IdxArg.slice s) ck = Except.error XErr.sliceStep ∧
      getItem2D rng rk (IdxArg.slice s) = Except.error XErr.sliceStep) ∧
    (s.step = Option.none → getItemSlice rng s ≠ Except.error XErr.sliceStep) ∧
    (stepOmitted rk → stepOmitted ck → ∃ r, getItem2D rng rk ck = Except.ok r) := by
  have hax : ∀ count : Int, s.step ≠ Option.none →
      axisBounds (IdxArg.slice s) count = Except.error XErr.sliceStep := by
    intro count h
    simp only [axisBounds]
    rw [if_pos h]
  have haxok : ∀ (k : IdxArg) (count : Int), stepOmitted k →
      ∃ p, axisBounds k count = Except.ok p := by
    intro k count hk
    rcases k with i | s2
    · exact ⟨(i, i), rfl⟩
    · simp only [stepOmitted] at hk
      simp only [axisBounds]
      rw [if_neg (by simp [hk])]
      exact ⟨_, rfl⟩
  refine ⟨?_, ?_, ?_⟩
  · intro h
    refine ⟨?_, ?_, ?_⟩
    · unfold getItemSlice
      rw [if_pos h]
    · unfold getItem2D
      rw [hax rng.row_count h]
    · unfold getItem2D
      rcases hrk : axisBounds rk rng.row_count with e | p
      · have he : e = XErr.sliceStep := by
          rcases rk with i | s2
          · simp [axisBounds] at hrk
          · simp only [axisBounds] at hrk
            split_ifs at hrk with h2 <;> simp_all
        rw [he]
      · rcases p with ⟨r1, r2⟩
        rw [hax rng.column_count h]
  · intro h hcon
    unfold getItemSlice at hcon
    rw [if_neg (by simp [h])] at hcon
    rcases hs : normStart s.start (rangeLen rng) with e | v
    · rw [hs] at hcon
      simp only [Except.error.injEq] at hcon
      rw [hcon] at hs
      exact normStart_not_sliceStep s.start (rangeLen rng) hs
    · rw [hs] at hcon
      rcases ht : normStop s.stop (rangeLen rng) with e | w
      · rw [ht] at hcon
        simp only [Except.error.injEq] at hcon
        rw [hcon] at ht
        exact normStop_not_sliceStep s.stop (rangeLen rng) ht
      · rw [ht] at hcon
        simp at hcon
  · intro hr hc
    obtain ⟨⟨r1, r2⟩, hrb⟩ := haxok rk rng.row_count hr
    obtain ⟨⟨c1, c2⟩, hcb⟩ := haxok ck rng.column_count hc
    unfold getItem2D
    simp only [hrb, hcb]
    split_ifs
    · exact ⟨_, rfl⟩
    · exact ⟨_, rfl⟩

/-- Witness for C10: a step explicitly equal to 1 raises on the linear form
and on both axes of the 2-D form, while step-free keys are accepted. -/
theorem c10_slice_step_witness :
    getItemSlice r15 { start := Option.none, stop := Option.none, step := some 1 } =
      Except.error XErr.sliceStep ∧
    getItem2D r23 (IdxArg.slice { start := Option.none, stop := Option.none, step := some 1 })
      (IdxArg.int 0) = Except.error XErr.sliceStep ∧
    getItem2D r23 (IdxArg.int 0)
      (IdxArg.slice { start := Option.none, stop := Option.none, step := some 1 }) =
      Except.error XErr.sliceStep ∧
    getItemSlice r15 { start := some 0, stop := some 2, step := Option.none } ≠
      Except.error XErr.sliceStep ∧
    (∃ r, getItem2D r23 (IdxArg.int 0)
      (IdxArg.slice { start := some 0, stop := some 2, step := Option.none }) =
        Except.ok r) := by
  have hone := c10_slice_step r15
    { start := Option.none, stop := Option.none, step := some 1 }
    (IdxArg.int 0) (IdxArg.int 0)
  have htwo := c10_slice_step r23
    { start := Option.none, stop := Option.none, step := some 1 }
    (IdxArg.int 0) (IdxArg.int 0)
  have hokl := (c10_slice_step r15 { start := some 0, stop := some 2, step := Option.none }
    (IdxArg.int 0) (IdxArg.int 0)).2.1 rfl
  have hok2 := (c10_slice_step r23 { start := some 0, stop := some 2, step := Option.none }
    (IdxArg.int 0)
    (IdxArg.slice { start := some 0, stop := some 2, step := Option.none })).2.2
    trivial rfl
  exact ⟨(hone.1 (by simp)).1, (htwo.1 (by simp)).2.1, (htwo.1 (by simp)).2.2,
    hokl, hok2⟩

/-! ## Claims C3 and C8: contiguous region expansion -/

/-- A single-cell Range anchored at the top-left corner of the sheet. -/
def rCell : XRange := { row := 1, column := 1, row_count := 1, column_count := 1, opts := [] }

/-- The downward scan never moves up: its result is at least its start row. -/
theorem scanDown_ge (g : XSheet) (c : Int) :
    ∀ (fuel : Nat) (r : Int), r ≤ scanDown g c r fuel := by
  intro fuel
  induction fuel with
  | zero => intro r; simp [scanDown]
  | succ n ih =>
    intro r
    simp only [scanDown]
    split_ifs
    · exact le_refl r
    · exact le_trans (by omega) (ih (r + 1))

/-- The rightward scan never moves left. -/
theorem scanRight_ge (g : XSheet) (r : Int) :
    ∀ (fuel : Nat) (c : Int), c ≤ scanRight g r c fuel := by
  intro fuel
  induction fuel with
  | zero => intro c; simp [scanRight]
  | succ n ih =>
    intro c
    simp only [scanRight]
    split_ifs
    · exact le_refl c
    · exact le_trans (by omega) (ih (c + 1))

/-- The per-axis growth length is always at least 1. -/
theorem specGrowDown_pos (g : XSheet) (r c : Int) : 1 ≤ specGrowDown g r c := by
  unfold specGrowDown
  split_ifs
  · omega
  · omega
  · have := scanDown_ge g c g.rows (r + 1)
    omega

/-- The per-axis rightward growth length is always at least 1. -/
theorem specGrowRight_pos (g : XSheet) (r c : Int) : 1 ≤ specGrowRight g r c := by
  unfold specGrowRight
  split_ifs
  · omega
  · omega
  · have := scanRight_ge g r g.cols (c + 1)
    omega

/-- `table` equals the rectangle given by the two spec-side growth lengths
from the anchor. -/
theorem table_eq_grow (g : XSheet) (rng : XRange) :
    table g rng = { row := rng.row, column := rng.column,
                    row_count := specGrowDown g rng.row rng.column,
                    column_count := specGrowRight g rng.row rng.column, opts := [] } := by
  have e1 : rng.row + 1 - 1 = rng.row := by ring
  have e2 : rng.column + 1 - 1 = rng.column := by ring
  have e3 : rng.row + 2 - 1 = rng.row + 1 := by ring
  have e4 : rng.row + 3 - 1 = rng.row + 2 := by ring
  have e5 : rng.column + 2 - 1 = rng.column + 1 := by ring
  have e6 : rng.column + 3 - 1 = rng.column + 2 := by ring
  have hd := scanDown_ge g rng.column g.rows (rng.row + 1)
  have hr := scanRight_ge g rng.row g.cols (rng.column + 1)
  unfold table
  simp only [callRC, rawValue, endDownCell, endRightCell, e1, e2, e3, e4, e5, e6,
    specGrowDown, specGrowRight]
  split_ifs <;>
    (simp only [rangeSpan, XRange.mk.injEq, and_true]; omega)

/-- `vertical` equals the column-width-preserving rectangle given by the
spec-side downward growth length. -/
theorem vertical_eq_grow (g : XSheet) (rng : XRange) (hc : 1 ≤ rng.column_count) :
    vertical g rng = { row := rng.row, column := rng.column,
                       row_count := specGrowDown g rng.row rng.column,
                       column_count := rng.column_count, opts := [] } := by
  have e1 : rng.row + 1 - 1 = rng.row := by ring
  have e2 : rng.column + 1 - 1 = rng.column := by ring
  have e3 : rng.row + 2 - 1 = rng.row + 1 := by ring
  have e4 : rng.row + 3 - 1 = rng.row + 2 := by ring
  have hd := scanDown_ge g rng.column g.rows (rng.row + 1)
  unfold vertical
  simp only [callRC, rawValue, endDownCell, e1, e2, e3, e4, specGrowDown]
  split_ifs <;>
    (simp only [rangeSpan, XRange.mk.injEq, and_true]; omega)

/-- `horizontal` equals the row-height-preserving rectangle given by the
spec-side rightward growth length. -/
theorem horizontal_eq_grow (g : XSheet) (rng : XRange) (hr : 1 ≤ rng.row_count) :
    horizontal g rng = { row := rng.row, column := rng.column,
                         row_count := rng.row_count,
                         column_count := specGrowRight g rng.row rng.column, opts := [] } := by
  have e1 : rng.row + 1 - 1 = rng.row := by ring
  have e2 : rng.column + 1 - 1 = rng.column := by ring
  have e5 : rng.column + 2 - 1 = rng.column + 1 := by ring
  have e6 : rng.column + 3 - 1 = rng.column + 2 := by ring
  have hrr := scanRight_ge g rng.row g.cols (rng.column + 1)
  unfold horizontal
  simp only [callRC, rawValue, endRightCell, e1, e2, e5, e6, specGrowRight]
  split_ifs <;>
    (simp only [rangeSpan, XRange.mk.injEq, and_true]; omega)

/-- Claim C3: `vertical` and `horizontal` follow the two-step lookahead
growth per axis (empty = blank or empty string; far edge by the directional
scan from the one-position-out cell); `table` is the rectangle of the two
growth lengths from the anchor, i.e. the span of `vertical` and `horizontal`
applied to the anchor cell. -/
theorem c3_region_growth (g : XSheet) (rng : XRange)
    (hr : 1 ≤ rng.row_count) (hc : 1 ≤ rng.column_count) :
    vertical g rng = { row := rng.row, column := rng.column,
                       row_count := specGrowDown g rng.row rng.column,
                       column_count := rng.column_count, opts := [] } ∧
    horizontal g rng = { row := rng.row, column := rng.column,
                         row_count := rng.row_count,
                         column_count := specGrowRight g rng.row rng.column, opts := [] } ∧
    table g rng = { row := rng.row, column := rng.column,
                    row_count := specGrowDown g rng.row rng.column,
                    column_count := specGrowRight g rng.row rng.column, opts := [] } ∧
    table g rng =
      rangeSpan (vertical g (callRC rng 1 1)) (horizontal g (callRC rng 1 1)) := by
  refine ⟨vertical_eq_grow g rng hc, horizontal_eq_grow g rng hr, table_eq_grow g rng, ?_⟩
  have hv := vertical_eq_grow g (callRC rng 1 1) (by norm_num [callRC])
  have hh := horizontal_eq_grow g (callRC rng 1 1) (by norm_num [callRC])
  rw [hv, hh, table_eq_grow]
  have e1 : rng.row + 1 - 1 = rng.row := by ring
  have e2 : rng.column + 1 - 1 = rng.column := by ring
  simp only [callRC, e1, e2]
  have hgd := specGrowDown_pos g rng.row rng.column
  have hgr := specGrowRight_pos g rng.row rng.column
  simp only [rangeSpan, XRange.mk.injEq, and_true]
  omega

/-- Witness for C3: the 4×3 block sheet, anchored at `A1` — the growth
lengths are 4 and 3 and the conjuncts hold at that instance. -/
theorem c3_region_growth_witness :
    vertical gBlock rCell = { row := 1, column := 1,
                              row_count := specGrowDown gBlock 1 1,
                              column_count := 1, opts := [] } ∧
    table gBlock rCell =
      rangeSpan (vertical gBlock (callRC rCell 1 1)) (horizontal gBlock (callRC rCell 1 1)) ∧
    specGrowDown gBlock 1 1 = 4 ∧
    specGrowRight gBlock 1 1 = 3 := by
  refine ⟨?_, ?_, by decide, by decide⟩
  · exact (c3_region_growth gBlock rCell (by decide) (by decide)).1
  · exact (c3_region_growth gBlock rCell (by decide) (by decide)).2.2.2

/-- Claim C8: when the cell below the anchor and the cell to its right are
both empty (as on an entirely empty sheet), `table` is exactly the single
anchor cell, with no error possible. -/
theorem c8_single_cell (g : XSheet) (rng : XRange)
    (hdown : isEmptyVal (gval g (rng.row + 1) rng.column) = true)
    (hright : isEmptyVal (gval g rng.row (rng.column + 1)) = true) :
    table g rng = { row := rng.row, column := rng.column,
                    row_count := 1, column_count := 1, opts := [] } := by
  rw [table_eq_grow]
  simp only [specGrowDown, specGrowRight, hdown, hright, if_true]

/-- Witness for C8: the all-empty sheet, anchored at `A1`. -/
theorem c8_single_cell_witness :
    table gEmpty rCell =
      { row := 1, column := 1, row_count := 1, column_count := 1, opts := [] } :=
  c8_single_cell gEmpty rCell (by decide) (by decide)

/-! ## Claim C7: propagation of the options bag -/

/-- Looking up a key other than `convert` is unaffected by erasing the
`convert` entry. -/
theorem optLookup_erase_ne (key : String) (o : List (String × PyVal))
    (hk : key ≠ "convert") :
    optLookup key (optErase "convert" o) = optLookup key o := by
  induction o with
  | nil => rfl
  | cons hd tl ih =>
    rcases hd with ⟨a, v⟩
    by_cases ha : a = "convert"
    · subst ha
      have h2 : ¬("convert" : String) = key := fun h => hk h.symm
      simp [optErase, optLookup, h2, ih]
    · by_cases h2 : a = key
      · subst h2
        simp [optErase, optLookup, ha]
      · simp [optErase, optLookup, ha, h2, ih]

/-- After erasing the `convert` entry, looking `convert` up finds nothing. -/
theorem optLookup_erase_self (o : List (String × PyVal)) :
    optLookup "convert" (optErase "convert" o) = Option.none := by
  induction o with
  | nil => rfl
  | cons hd tl ih =>
    rcases hd with ⟨a, v⟩
    by_cases ha : a = "convert"
    · simp [optErase, ha, ih]
    · simp [optErase, optLookup, ha, ih]

/-- Bag lookup distributes over append, preferring the left list. -/
theorem optLookup_append (key : String) (l1 l2 : List (String × PyVal)) :
    optLookup key (l1 ++ l2) =
      (match optLookup key l1 with
       | some v => some v
       | Option.none => optLookup key l2) := by
  induction l1 with
  | nil => rfl
  | cons hd tl ih =>
    rcases hd with ⟨a, v⟩
    by_cases h : a = key
    · subst h
      simp [optLookup]
    · simp [optLookup, h, ih]

/-- Counterexample for C7: a Range carrying the options bag
`[("ndim", 2)]`, sliced with `[0:2]`, yields a Range whose options bag is
empty — the originating bag is not preserved by slicing. -/
theorem c7_counterexample :
    getItemSlice rOpt { start := some 0, stop := some 2, step := Option.none } =
      Except.ok { row := 1, column := 1, row_count := 1, column_count := 2, opts := [] } ∧
    rOpt.opts ≠ ([] : List (String × PyVal)) := by
  decide

/-- Claim C7 (amended): Ranges produced by linear, 2-D or slice indexing
carry the empty options bag, not the originating one; `resize` and `offset`
rebuild the originating bag through `options(**self._options)`, which keeps
every entry and defaults the `convert` entry to Python `None` when it is
absent. -/
theorem c7_options_propagation (rng r : XRange) (s : PySlice) (k : Int)
    (rk ck : IdxArg) (rs cs : Option Int) (ro co : Int) (key : String) :
    (getItemSlice rng s = Except.ok r → r.opts = []) ∧
    (getItemInt rng k = Except.ok r → r.opts = []) ∧
    (getItem2D rng rk ck = Except.ok r → r.opts = []) ∧
    (resize rng rs cs = Except.ok r → r.opts = applyOpts rng.opts) ∧
    (offset rng ro co).opts = applyOpts rng.opts ∧
    (key ≠ "convert" →
      optLookup key (applyOpts rng.opts) = optLookup key rng.opts) ∧
    optLookup "convert" (applyOpts rng.opts) =
      some ((optLookup "convert" rng.opts).getD PyVal.none) := by
  refine ⟨?_, ?_, ?_, ?_, rfl, ?_, ?_⟩
  · intro h
    unfold getItemSlice at h
    split_ifs at h with h1
    rcases hs : normStart s.start (rangeLen rng) with e | v <;> rw [hs] at h
    · simp at h
    · rcases ht : normStop s.stop (rangeLen rng) with e | w <;> rw [ht] at h
      · simp at h
      · simp at h
        subst h
        rfl
  · intro h
    unfold getItemInt at h
    split_ifs at h <;> simp only [Except.ok.injEq] at h <;> (subst h; rfl)
  · intro h
    unfold getItem2D at h
    rcases hrb : axisBounds rk rng.row_count with e | ⟨r1, r2⟩ <;> rw [hrb] at h
    · simp at h
    · rcases hcb : axisBounds ck rng.column_count with e | ⟨c1, c2⟩ <;> rw [hcb] at h
      · simp at h
      · simp at h
        split_ifs at h <;> simp only [Except.ok.injEq] at h <;> (subst h; rfl)
  · intro h
    rcases rs with _ | rv <;> rcases cs with _ | cv <;> simp only [resize] at h
    · simp at h
      subst h
      rfl
    · split_ifs at h <;> simp at h
      all_goals (subst h; rfl)
    · split_ifs at h <;> simp at h
      all_goals (subst h; rfl)
    · split_ifs at h <;> simp at h
      all_goals (subst h; rfl)
  · intro hk
    unfold applyOpts
    rw [optLookup_append, optLookup_erase_ne key rng.opts hk]
    cases h : optLookup key rng.opts
    · simp only [optLookup]
      rw [if_neg (Ne.symm hk)]
    · rfl
  · unfold applyOpts
    rw [optLookup_append, optLookup_erase_self]
    rfl

/-- Witness for C7 (amended): slicing the option-carrying Range `rOpt` drops
its bag, while `offset` rebuilds it and keeps the `ndim` entry. -/
theorem c7_options_propagation_witness :
    ({ row := 1, column := 1, row_count := 1, column_count := 2,
       opts := ([] : List (String × PyVal)) } : XRange).opts = [] ∧
    (offset rOpt 1 1).opts = applyOpts rOpt.opts ∧
    optLookup "ndim" (applyOpts rOpt.opts) = optLookup "ndim" rOpt.opts := by
  have h := c7_options_propagation rOpt
    { row := 1, column := 1, row_count := 1, column_count := 2, opts := [] }
    { start := some 0, stop := some 2, step := Option.none } 0
    (IdxArg.int 0) (IdxArg.int 0) Option.none Option.none 1 1 "ndim"
  exact ⟨h.1 (by decide), h.2.2.2.2.1, h.2.2.2.2.2.1 (by decide)⟩
